import Mathlib

/-!
Verification of the stock_portfolio_tracker repository.

Shallow embedding of the repository's computational pieces:
- the keyword sentiment scorer and news aggregation of
  `src/sandboxes/news/google_news_deprecated.py`,
- the NewsAPI client wrapper of `src/sandboxes/news/news_client.py`,
- the portfolio arithmetic and `safe_divide` helper, whose bodies in
  `src/app` are empty stubs and are therefore modelled from the spec.

Python floats are modelled as exact rationals; Python's 3-decimal
`round` is modelled as rational rounding half-to-even; `str.lower` is
modelled by `String.toLower` (ASCII case folding, which agrees with
Python on all the ASCII keyword lists involved).
-/

namespace StockTracker

/-- Python's `text.lower()` as a character list (ASCII case folding,
which agrees with Python on ASCII input). -/
def lower_chars (text : String) : List Char :=
  text.toList.map Char.toLower

/-- Substring containment, the meaning of Python's `pat in text`:
some tail of `text` has `pat` as a prefix. -/
def contains_sub (text : List Char) (pat : String) : Bool :=
  text.tails.any (fun s => pat.toList.isPrefixOf s)

/-- The fixed positive keyword list of `analyze_sentiment`
(`google_news_deprecated.py` lines 135-151). -/
def positive_words : List String :=
  ["up", "rise", "gain", "positive", "growth", "profit", "earnings",
   "beat", "strong", "bullish", "surge", "rally", "higher", "increase",
   "success"]

/-- The fixed negative keyword list of `analyze_sentiment`
(`google_news_deprecated.py` lines 153-169). -/
def negative_words : List String :=
  ["down", "fall", "drop", "negative", "loss", "decline", "miss",
   "weak", "bearish", "crash", "lower", "decrease", "failure", "risk",
   "concern"]

/-- Python's `sum(1 for word in ws if word in text_lower)`: each listed
word contributes 1 when it is contained in the text, independently of
how often it occurs. -/
def count_hits (ws : List String) (text_lower : List Char) : Nat :=
  (ws.map (fun w => if contains_sub text_lower w then 1 else 0)).sum

/-- Rounding half-to-even to an integer, the tie rule of Python's
`round`: `x = f + r / den` with `0 ≤ r < den`, rounding up exactly when
the remainder exceeds half, and to the even neighbour on a tie. -/
def round_half_even (x : ℚ) : ℤ :=
  let f := Int.fdiv x.num (x.den : ℤ)
  let r := Int.fmod x.num (x.den : ℤ)
  if 2 * r < (x.den : ℤ) then f
  else if 2 * r > (x.den : ℤ) then f + 1
  else if f % 2 = 0 then f else f + 1

/-- Python's `round(x, 3)` on the exact rational model. -/
def round3 (x : ℚ) : ℚ :=
  (round_half_even (x * 1000) : ℚ) / 1000

/-- The dictionary returned by `analyze_sentiment`. -/
structure SentimentResult where
  sentiment : String
  score : ℚ
  positive_words : Nat
  negative_words : Nat
deriving DecidableEq, Repr

/-- `GoogleNewsSandbox.analyze_sentiment`
(`google_news_deprecated.py` lines 132-191): lower-case the text, count
keyword hits, pick the label by comparing the counts, score the winner
by `count / (positive_count + negative_count + 1)` (0.5 when tied), and
return the score rounded to 3 decimals. -/
def analyze_sentiment (text : String) : SentimentResult :=
  let text_lower := lower_chars text
  let positive_count := count_hits positive_words text_lower
  let negative_count := count_hits negative_words text_lower
  if positive_count > negative_count then
    ⟨"positive",
     round3 ((positive_count : ℚ) / (positive_count + negative_count + 1)),
     positive_count, negative_count⟩
  else if negative_count > positive_count then
    ⟨"negative",
     round3 ((negative_count : ℚ) / (positive_count + negative_count + 1)),
     positive_count, negative_count⟩
  else
    ⟨"neutral", round3 (1/2), positive_count, negative_count⟩

/-- From the claim's words (C2), not from the source: the number of
occurrences of `w` in `t` (occurrence positions, so a word occurring k
times counts k). -/
def occurrence_count (w : String) (t : List Char) : Nat :=
  (t.tails.filter (fun s => w.toList.isPrefixOf s)).length

/-- From the claim's words (C2): total occurrences in the lower-cased
text of all the words of a list, with multiplicity. -/
def occurrence_total (ws : List String) (text : String) : Nat :=
  (ws.map (fun w => occurrence_count w (lower_chars text))).sum

/-- The fields extracted from one parsed `<article>` element
(`google_news_deprecated.py` lines 54-93). -/
structure ArticleFields where
  title : String
  link : String
  source : String
  time : String
deriving DecidableEq, Repr

/-- The article dictionary built by `search_news`: the extracted fields
plus the query that produced the article. -/
structure Article where
  title : String
  link : String
  source : String
  time : String
  query : String
deriving DecidableEq, Repr

/-- Builds the dictionary appended by `search_news` for one element. -/
def mk_article (query : String) (f : ArticleFields) : Article :=
  ⟨f.title, f.link, f.source, f.time, query⟩

/-- `GoogleNewsSandbox.search_news` (`google_news_deprecated.py` lines
31-104). The network request and HTML parsing are abstracted as the
`page` argument: `.error msg` when the request or parsing raises, and
otherwise the list of `<article>` elements, each carried as `some`
extracted fields or `none` when its per-element extraction raises (the
inner handler skips such elements). The slice `article_elements[:10]`
is `List.take 10`; the outer handler turns any failure into `[]`. -/
def search_news (query : String)
    (page : Except String (List (Option ArticleFields))) : List Article :=
  match page with
  | Except.error _ => []
  | Except.ok elems =>
      (elems.take 10).filterMap (fun e => e.map (mk_article query))

/-- The query list built by `get_stock_news`
(`google_news_deprecated.py` lines 110-114): the symbol, then, when the
company name is non-empty, the company name and the combined query. -/
def stock_queries (symbol company_name : String) : List String :=
  [symbol] ++
    (if company_name ≠ "" then
      [company_name, symbol ++ " " ++ company_name]
    else [])

/-- The title-deduplication loop of `get_stock_news`
(`google_news_deprecated.py` lines 122-128): keep an article exactly
when its title has not been seen before; `seen` is the `seen_titles`
set accumulated so far. -/
def dedup_by_title : List Article → List String → List Article
  | [], _ => []
  | a :: rest, seen =>
      if a.title ∈ seen then dedup_by_title rest seen
      else a :: dedup_by_title rest (a.title :: seen)

/-- `GoogleNewsSandbox.get_stock_news` (`google_news_deprecated.py`
lines 106-130): fetch each query's page, concatenate, deduplicate by
exact title, and keep the first 15 unique articles. `pages` gives each
query's fetch outcome, as in `search_news`. -/
def get_stock_news (pages : String → Except String (List (Option ArticleFields)))
    (symbol company_name : String) : List Article :=
  (dedup_by_title
    ((stock_queries symbol company_name).flatMap
      (fun q => search_news q (pages q))) []).take 15

/-- Python exception values distinguished by class, as far as the
claims need them. -/
inductive PyError where
  | valueError (msg : String)
  | exception (msg : String)
deriving DecidableEq, Repr

/-- The parsed article dataclass of `news_client.py` (lines 19-31). -/
structure NewsArticle where
  source_id : String
  source_name : String
  author : Option String
  title : String
  description : Option String
  url : String
  url_to_image : Option String
  published_at : String
  content : Option String
deriving DecidableEq, Repr

/-- The parsed response dataclass of `news_client.py` (lines 34-40). -/
structure NewsResponse where
  status : String
  total_results : Nat
  articles : List NewsArticle
deriving DecidableEq, Repr

/-- `NewsAPIClient.get_top_headlines` (`news_client.py` lines 66-107).
The body of the `try` block — the external `newsapi` call followed by
`_parse_response` — is abstracted as `call`, whose outcome is
`.error msg` when it raises with message `msg`. The handler catches any
exception and re-raises a generic `Exception` with a formatted
message. -/
def get_top_headlines (call : Except String NewsResponse) :
    Except PyError NewsResponse :=
  match call with
  | Except.ok r => Except.ok r
  | Except.error e =>
      Except.error (PyError.exception ("Error fetching top headlines: " ++ e))

/-- `NewsAPIClient.get_everything` (`news_client.py` lines 109-160),
abstracted exactly like `get_top_headlines`; its handler re-raises with
a different message. -/
def get_everything (call : Except String NewsResponse) :
    Except PyError NewsResponse :=
  match call with
  | Except.ok r => Except.ok r
  | Except.error e =>
      Except.error (PyError.exception ("Error fetching articles: " ++ e))

/-- From the claim's words (C7): whether a call returned a value at all
(rather than raising/propagating an exception). -/
def returns_result {α : Type} : Except PyError α → Bool
  | Except.ok _ => true
  | Except.error _ => false

/-- `get_news` (`news_client.py` lines 220-240). The constructed
client's two endpoint methods are given as functions `top` and `ev` of
the keyword arguments (of an arbitrary type `κ`, since `**kwargs` is
passed through verbatim); the string comparisons and the final
`ValueError` are the function's own code. -/
def get_news {κ : Type} (top ev : κ → Except PyError NewsResponse)
    (endpoint : String) (kwargs : κ) : Except PyError NewsResponse :=
  if endpoint = "top_headlines" then top kwargs
  else if endpoint = "everything" then ev kwargs
  else Except.error (PyError.valueError
    "endpoint must be either top_headlines or everything")

/-- Modelled from the spec: `safe_divide` in `src/app/utils/helpers.py`
(lines 78-92) has an empty body (`pass`); per the spec's division-by-
zero guard it returns the supplied default when the denominator is
zero and the quotient otherwise. -/
def safe_divide (numerator denominator default : ℚ) : ℚ :=
  if denominator = 0 then default else numerator / denominator

/-- A portfolio position, per spec section 3: symbol, shares and cost
basis per share. -/
structure Position where
  symbol : String
  shares : ℚ
  cost_basis_per_share : ℚ
deriving DecidableEq, Repr

/-- The portfolio state: `Portfolio.__init__` in
`src/app/core/portfolio.py` is a stub taking a name and a user id; the
positions list starts empty. -/
structure Portfolio where
  name : String
  user_id : String
  positions : List Position
deriving DecidableEq, Repr

/-- Modelled from the spec: `Portfolio.add_position`
(`src/app/core/portfolio.py` lines 27-39) has an empty body; per spec
section 4.1 it validates `shares > 0` and `price ≥ 0`, failing with a
`ValidationError` otherwise, and inserts the position. The spec leaves
the merge rule for an already-held symbol explicitly unspecified, so
that case is delegated to the `merge` argument. -/
def add_position (merge : List Position → String → ℚ → ℚ → List Position)
    (p : Portfolio) (symbol : String) (shares price : ℚ) :
    Except PyError Portfolio :=
  if shares > 0 ∧ price ≥ 0 then
    if p.positions.any (fun pos => pos.symbol = symbol) then
      Except.ok ⟨p.name, p.user_id, merge p.positions symbol shares price⟩
    else
      Except.ok ⟨p.name, p.user_id, p.positions ++ [⟨symbol, shares, price⟩]⟩
  else Except.error (PyError.valueError "ValidationError")

/-- Modelled from the spec: the quote-and-sum loop of
`Portfolio.get_total_value` (`src/app/core/portfolio.py` lines 53-60,
empty body); per spec section 4.1, fetch each position's quote,
multiply by shares and sum, failing as a whole if any quote fetch
fails. -/
def total_value (quote : String → Except PyError ℚ) :
    List Position → Except PyError ℚ
  | [] => Except.ok 0
  | pos :: rest =>
      match quote pos.symbol, total_value quote rest with
      | Except.ok price, Except.ok v => Except.ok (pos.shares * price + v)
      | Except.error e, _ => Except.error e
      | Except.ok _, Except.error e => Except.error e

/-- Modelled from the spec: `Portfolio.get_total_value`
(`src/app/core/portfolio.py` lines 53-60, empty body), with the quote
source given as `quote`. -/
def get_total_value (quote : String → Except PyError ℚ) (p : Portfolio) :
    Except PyError ℚ :=
  total_value quote p.positions

/-- The invested value of a portfolio: shares times cost basis,
summed. -/
def invested_value (p : Portfolio) : ℚ :=
  (p.positions.map (fun pos => pos.shares * pos.cost_basis_per_share)).sum

/-- The performance dictionary of spec section 4.1. -/
structure Performance where
  total_return_pct : ℚ
  current_value : ℚ
  invested_value : ℚ
deriving DecidableEq, Repr

/-- Modelled from the spec: `Portfolio.get_performance`
(`src/app/core/portfolio.py` lines 62-72, empty body); per spec section
4.1 it returns `(current - invested) / invested` with the division-by-
zero convention of `safe_divide` (return 0), together with the current
and invested values. -/
def get_performance (quote : String → Except PyError ℚ) (p : Portfolio) :
    Except PyError Performance :=
  match get_total_value quote p with
  | Except.error e => Except.error e
  | Except.ok current =>
      Except.ok ⟨safe_divide (current - invested_value p) (invested_value p) 0,
        current, invested_value p⟩

/-! Helper lemmas about the sentiment scorer. -/

theorem count_hits_eq_length_filter (ws : List String) (t : List Char) :
    count_hits ws t = (ws.filter (fun w => contains_sub t w)).length := by
  induction ws with
  | nil => rfl
  | cons w ws ih =>
      by_cases h : contains_sub t w <;>
        simp [count_hits, List.filter, h, List.map] <;>
        simp only [count_hits] at ih <;> omega

theorem analyze_sentiment_counts (text : String) :
    (analyze_sentiment text).positive_words =
      count_hits positive_words (lower_chars text) ∧
    (analyze_sentiment text).negative_words =
      count_hits negative_words (lower_chars text) := by
  simp only [analyze_sentiment]
  split_ifs <;> exact ⟨rfl, rfl⟩

theorem analyze_sentiment_eq_of_pos (text : String)
    (h : count_hits positive_words (lower_chars text) >
      count_hits negative_words (lower_chars text)) :
    analyze_sentiment text =
      ⟨"positive",
       round3 ((count_hits positive_words (lower_chars text) : ℚ) /
         (count_hits positive_words (lower_chars text) +
           count_hits negative_words (lower_chars text) + 1)),
       count_hits positive_words (lower_chars text),
       count_hits negative_words (lower_chars text)⟩ := by
  simp only [analyze_sentiment]
  rw [if_pos h]

theorem analyze_sentiment_eq_of_neg (text : String)
    (h : count_hits negative_words (lower_chars text) >
      count_hits positive_words (lower_chars text)) :
    analyze_sentiment text =
      ⟨"negative",
       round3 ((count_hits negative_words (lower_chars text) : ℚ) /
         (count_hits positive_words (lower_chars text) +
           count_hits negative_words (lower_chars text) + 1)),
       count_hits positive_words (lower_chars text),
       count_hits negative_words (lower_chars text)⟩ := by
  simp only [analyze_sentiment]
  rw [if_neg (by omega), if_pos h]

theorem analyze_sentiment_eq_of_tie (text : String)
    (h : count_hits positive_words (lower_chars text) =
      count_hits negative_words (lower_chars text)) :
    analyze_sentiment text =
      ⟨"neutral", round3 (1/2),
       count_hits positive_words (lower_chars text),
       count_hits negative_words (lower_chars text)⟩ := by
  simp only [analyze_sentiment]
  rw [if_neg (by omega), if_neg (by omega)]

theorem round3_half : round3 ((1 : ℚ)/2) = 1/2 := by
  have h1 : ((1:ℚ)/2 * 1000).num = 500 := by norm_num
  have h2 : ((1:ℚ)/2 * 1000).den = 1 := by norm_num
  have h3 : Int.fmod 500 1 = 0 := by decide
  have h4 : Int.fdiv 500 1 = 500 := by decide
  simp only [round3, round_half_even, h1, h2, Nat.cast_one, h3, h4]
  norm_num

theorem round3_two_thirds : round3 ((2 : ℚ)/3) = 667/1000 := by
  have h1 : ((2:ℚ)/3 * 1000).num = 2000 := by norm_num
  have h2 : ((2:ℚ)/3 * 1000).den = 3 := by norm_num
  have h3 : Int.fmod 2000 3 = 2 := by decide
  have h4 : Int.fdiv 2000 3 = 666 := by decide
  simp only [round3, round_half_even, h1, h2, Nat.cast_ofNat, h3, h4]
  norm_num

/-- C1 counterexample: on the text "rise gain" the scorer counts 2
positive hits and 0 negative hits and labels it positive, but the
returned score is `round(2/3, 3) = 0.667`, not the exact
`positive_count / (positive_count + negative_count + 1) = 2/3` the
claim states. -/
theorem analyze_sentiment_exact_score_cex :
    (analyze_sentiment "rise gain").positive_words = 2 ∧
    (analyze_sentiment "rise gain").negative_words = 0 ∧
    (analyze_sentiment "rise gain").sentiment = "positive" ∧
    (analyze_sentiment "rise gain").score ≠ 2/3 := by
  refine ⟨by decide, by decide, by decide, ?_⟩
  have hp : count_hits positive_words (lower_chars "rise gain") = 2 := by decide
  have hn : count_hits negative_words (lower_chars "rise gain") = 0 := by decide
  have he := analyze_sentiment_eq_of_pos "rise gain" (by decide)
  rw [he]
  show round3 _ ≠ _
  rw [hp, hn]
  have harg : ((2 : ℕ) : ℚ) / ((2 : ℕ) + (0 : ℕ) + 1) = (2 : ℚ)/3 := by
    norm_num
  rw [harg, round3_two_thirds]
  norm_num

/-- C1 (amended): for every text, the label is positive, negative or
neutral by comparison of the keyword counts, the winning score is
`winning_count / (positive_count + negative_count + 1)` rounded to 3
decimals, and the neutral score is exactly 0.5. -/
theorem analyze_sentiment_label_and_rounded_score (text : String) :
    (count_hits positive_words (lower_chars text) >
        count_hits negative_words (lower_chars text) →
      (analyze_sentiment text).sentiment = "positive" ∧
      (analyze_sentiment text).score =
        round3 ((count_hits positive_words (lower_chars text) : ℚ) /
          (count_hits positive_words (lower_chars text) +
            count_hits negative_words (lower_chars text) + 1))) ∧
    (count_hits negative_words (lower_chars text) >
        count_hits positive_words (lower_chars text) →
      (analyze_sentiment text).sentiment = "negative" ∧
      (analyze_sentiment text).score =
        round3 ((count_hits negative_words (lower_chars text) : ℚ) /
          (count_hits positive_words (lower_chars text) +
            count_hits negative_words (lower_chars text) + 1))) ∧
    (count_hits positive_words (lower_chars text) =
        count_hits negative_words (lower_chars text) →
      (analyze_sentiment text).sentiment = "neutral" ∧
      (analyze_sentiment text).score = 1/2) := by
  refine ⟨fun h => ?_, fun h => ?_, fun h => ?_⟩
  · rw [analyze_sentiment_eq_of_pos text h]; exact ⟨rfl, rfl⟩
  · rw [analyze_sentiment_eq_of_neg text h]; exact ⟨rfl, rfl⟩
  · rw [analyze_sentiment_eq_of_tie text h]; exact ⟨rfl, round3_half⟩

/-- C1 witness: "rise gain" has more positive than negative hits and is
labelled positive. -/
theorem analyze_sentiment_label_and_rounded_score_witness :
    count_hits positive_words (lower_chars "rise gain") >
      count_hits negative_words (lower_chars "rise gain") ∧
    (analyze_sentiment "rise gain").sentiment = "positive" :=
  ⟨by decide,
   ((analyze_sentiment_label_and_rounded_score "rise gain").1 (by decide)).1⟩

/-- C2 counterexample: in the text "up up" the positive word "up"
occurs twice, so the claimed occurrence count is 2, but the scorer
reports a positive count of 1 — each listed word contributes at most
once, by membership, not with multiplicity. -/
theorem sentiment_count_multiplicity_cex :
    (analyze_sentiment "up up").positive_words = 1 ∧
    occurrence_total positive_words "up up" = 2 ∧
    (analyze_sentiment "up up").positive_words ≠
      occurrence_total positive_words "up up" := by
  refine ⟨by decide, by decide, by decide⟩

/-- C2 (amended): the reported counts equal the number of words of the
fixed positive and negative lists contained as substrings in the
lower-cased text — a listed word contributes 1 when it occurs at all,
regardless of how many times it occurs. -/
theorem sentiment_counts_are_membership (text : String) :
    (analyze_sentiment text).positive_words =
      (positive_words.filter
        (fun w => contains_sub (lower_chars text) w)).length ∧
    (analyze_sentiment text).negative_words =
      (negative_words.filter
        (fun w => contains_sub (lower_chars text) w)).length := by
  refine ⟨?_, ?_⟩
  · rw [(analyze_sentiment_counts text).1, count_hits_eq_length_filter]
  · rw [(analyze_sentiment_counts text).2, count_hits_eq_length_filter]

/-- C8: the sentiment scorer is deterministic — two calls on the same
text return the same result (it is a pure function of its input). -/
theorem analyze_sentiment_deterministic (t₁ t₂ : String) (h : t₁ = t₂) :
    analyze_sentiment t₁ = analyze_sentiment t₂ := by
  rw [h]

/-- C8 witness: two calls on the text "up" agree. -/
theorem analyze_sentiment_deterministic_witness :
    "up" = "up" ∧ analyze_sentiment "up" = analyze_sentiment "up" :=
  ⟨rfl, analyze_sentiment_deterministic "up" "up" rfl⟩

/-! Helper lemma about title deduplication. -/

theorem dedup_by_title_spec (l : List Article) :
    ∀ seen : List String,
      ((dedup_by_title l seen).map Article.title).Nodup ∧
      ∀ a ∈ dedup_by_title l seen, a.title ∉ seen := by
  induction l with
  | nil =>
      intro seen
      exact ⟨List.nodup_nil, by intro a ha; cases ha⟩
  | cons a rest ih =>
      intro seen
      by_cases h : a.title ∈ seen
      · simp only [dedup_by_title, if_pos h]
        exact ⟨(ih seen).1, fun b hb => (ih seen).2 b hb⟩
      · simp only [dedup_by_title, if_neg h]
        constructor
        · simp only [List.map_cons, List.nodup_cons]
          constructor
          · intro hmem
            obtain ⟨b, hb, hbt⟩ := List.mem_map.mp hmem
            exact (ih (a.title :: seen)).2 b hb
              (by rw [hbt]; exact List.mem_cons_self _ _)
          · exact (ih (a.title :: seen)).1
        · intro b hb
          rcases List.mem_cons.mp hb with hb | hb
          · rw [hb]; exact h
          · intro hbs
            exact (ih (a.title :: seen)).2 b hb (List.mem_cons_of_mem _ hbs)

/-- C3: the aggregated stock-news list is deduplicated by exact title —
for every fetch outcome, symbol and company name, no two articles in
the returned list share a title. -/
theorem get_stock_news_titles_nodup
    (pages : String → Except String (List (Option ArticleFields)))
    (symbol company_name : String) :
    ((get_stock_news pages symbol company_name).map Article.title).Nodup := by
  simp only [get_stock_news]
  refine List.Nodup.sublist (List.Sublist.map _ (List.take_sublist 15 _)) ?_
  exact (dedup_by_title_spec _ []).1

/-- C9: result-size caps — `search_news` returns at most 10 articles
for every query and page, and `get_stock_news` returns at most 15
deduplicated articles for every fetch outcome, symbol and company
name. -/
theorem news_result_size_caps :
    (∀ (q : String) (page : Except String (List (Option ArticleFields))),
      (search_news q page).length ≤ 10) ∧
    (∀ (pages : String → Except String (List (Option ArticleFields)))
      (symbol company_name : String),
      (get_stock_news pages symbol company_name).length ≤ 15) := by
  constructor
  · intro q page
    match page with
    | Except.error e => simp [search_news]
    | Except.ok elems =>
        exact le_trans (List.length_filterMap_le _ _)
          (List.length_take_le _ _)
  · intro pages symbol company_name
    simp only [get_stock_news]
    exact List.length_take_le _ _

/-- C7 counterexample: when its underlying call raises, the NewsAPI
client's `get_top_headlines` does not return an empty or None result —
it propagates an exception (a re-raised generic `Exception` with a
formatted message). -/
theorem sandbox_error_swallowing_cex :
    returns_result (get_top_headlines (Except.error "boom")) = false ∧
    get_top_headlines (Except.error "boom") =
      Except.error (PyError.exception "Error fetching top headlines: boom") :=
  ⟨rfl, rfl⟩

/-- C7 (amended): the Google News sandbox's external-call handler
prints a message and returns an empty list when the call raises, but
the NewsAPI client's handlers instead catch the exception and re-raise
it wrapped in a generic `Exception` with a formatted message, so the
error propagates to the caller. -/
theorem sandbox_error_handlers :
    (∀ q e : String, search_news q (Except.error e) = []) ∧
    (∀ e : String, get_top_headlines (Except.error e) =
      Except.error
        (PyError.exception ("Error fetching top headlines: " ++ e))) ∧
    (∀ e : String, get_everything (Except.error e) =
      Except.error (PyError.exception ("Error fetching articles: " ++ e))) :=
  ⟨fun _ _ => rfl, fun _ => rfl, fun _ => rfl⟩

/-- C10: `get_news` raises `ValueError` on every endpoint string other
than "top_headlines" and "everything", and dispatches those two to the
corresponding client method with the keyword arguments passed through
unchanged. -/
theorem get_news_dispatch :
    (∀ (κ : Type) (top ev : κ → Except PyError NewsResponse)
      (endpoint : String) (kwargs : κ),
      endpoint ≠ "top_headlines" → endpoint ≠ "everything" →
      get_news top ev endpoint kwargs =
        Except.error (PyError.valueError
          "endpoint must be either top_headlines or everything")) ∧
    (∀ (κ : Type) (top ev : κ → Except PyError NewsResponse) (kwargs : κ),
      get_news top ev "top_headlines" kwargs = top kwargs ∧
      get_news top ev "everything" kwargs = ev kwargs) := by
  constructor
  · intro κ top ev endpoint kwargs h1 h2
    simp [get_news, h1, h2]
  · intro κ top ev kwargs
    exact ⟨rfl, rfl⟩

/-- C10 witness: the endpoint string "sources" is neither of the two
dispatch targets and produces the `ValueError`. -/
theorem get_news_dispatch_witness :
    ("sources" : String) ≠ "top_headlines" ∧
    ("sources" : String) ≠ "everything" ∧
    get_news (fun _ : Unit => Except.ok ⟨"ok", 0, []⟩)
      (fun _ : Unit => Except.ok ⟨"ok", 0, []⟩) "sources" () =
      Except.error (PyError.valueError
        "endpoint must be either top_headlines or everything") :=
  ⟨by decide, by decide,
   get_news_dispatch.1 Unit _ _ "sources" () (by decide) (by decide)⟩

/-- C4: the division-by-zero guard — `safe_divide 5 0` with default 0
returns the default 0 instead of raising. -/
theorem safe_divide_by_zero_default : safe_divide 5 0 0 = 0 := by
  simp [safe_divide]

/-- C5: `get_performance` on a portfolio with no positions returns a 0%
total return (with zero current and invested value) without error, and
more generally any successful `get_performance` on a portfolio with
zero invested value reports a 0% total return. -/
theorem get_performance_zero_invested (quote : String → Except PyError ℚ)
    (name uid : String) :
    get_performance quote ⟨name, uid, []⟩ = Except.ok ⟨0, 0, 0⟩ ∧
    (∀ (p : Portfolio) (perf : Performance), invested_value p = 0 →
      get_performance quote p = Except.ok perf →
      perf.total_return_pct = 0) := by
  constructor
  · simp [get_performance, get_total_value, total_value, invested_value,
      safe_divide]
  · intro p perf h0 hperf
    simp only [get_performance] at hperf
    cases htv : get_total_value quote p with
    | error e => rw [htv] at hperf; cases hperf
    | ok current =>
        rw [htv] at hperf
        have hp : perf =
            ⟨safe_divide (current - invested_value p) (invested_value p) 0,
             current, invested_value p⟩ :=
          (Except.ok.injEq _ _).mp hperf.symm
        rw [hp, h0]
        simp [safe_divide]

/-- C5 witness: the empty portfolio has zero invested value and its
performance result carries a 0% total return. -/
theorem get_performance_zero_invested_witness :
    invested_value (Portfolio.mk "p" "u" []) = 0 ∧
    (Performance.mk 0 0 0).total_return_pct = 0 := by
  have h := get_performance_zero_invested (fun _ => Except.ok 1) "p" "u"
  refine ⟨by simp [invested_value], ?_⟩
  exact h.2 ⟨"p", "u", []⟩ ⟨0, 0, 0⟩ (by simp [invested_value]) h.1

/-- C6: adding a position with `shares > 0` and `price ≥ 0` to an empty
portfolio succeeds, and the total value under a quote source returning
that same price is exactly `shares * price`. -/
theorem add_position_then_total_value
    (merge : List Position → String → ℚ → ℚ → List Position)
    (name uid symbol : String) (shares price : ℚ)
    (hs : shares > 0) (hp : price ≥ 0) :
    add_position merge ⟨name, uid, []⟩ symbol shares price =
      Except.ok ⟨name, uid, [⟨symbol, shares, price⟩]⟩ ∧
    get_total_value (fun _ => Except.ok price)
      ⟨name, uid, [⟨symbol, shares, price⟩]⟩ =
      Except.ok (shares * price) := by
  constructor
  · simp [add_position, hs, hp]
  · simp [get_total_value, total_value]

/-- C6 witness: adding 2 shares at price 3 to an empty portfolio and
valuing it with a quote of 3 yields a total value of 6. -/
theorem add_position_then_total_value_witness :
    (2 : ℚ) > 0 ∧ (3 : ℚ) ≥ 0 ∧
    get_total_value (fun _ => Except.ok 3)
      ⟨"p", "u", [⟨"AAPL", 2, 3⟩]⟩ = Except.ok 6 := by
  have h := add_position_then_total_value (fun l _ _ _ => l) "p" "u" "AAPL"
    2 3 (by norm_num) (by norm_num)
  refine ⟨by norm_num, by norm_num, ?_⟩
  rw [h.2]
  norm_num

end StockTracker
